import Mathlib

/-!
Verification of the BloodOn donor-matching core (`src/app.py`) via a shallow
embedding in Lean 4.  Strings are modelled as `List Char`; the database and
the notification transports are modelled as explicit parameters (the donor
table as a `List Donor`, email delivery as an oracle `Nat → Bool` keyed by
donor id).  Definitions follow the Python source line by line.
-/

/-- A Python string, modelled as its list of characters. -/
def str (s : String) : List Char := s.data

/-- Python `str.isspace` characters relevant to `str.strip()`
(space, tab, newline, carriage return, vertical tab, form feed). -/
def pyIsSpace (c : Char) : Bool :=
  c == ' ' || c == '\t' || c == '\n' || c == '\r' || c == '\x0b' || c == '\x0c'

/-- Python `str.lower()` restricted to ASCII: maps `A`-`Z` to `a`-`z`. -/
def pyLower (c : Char) : Char :=
  if 65 ≤ c.toNat ∧ c.toNat ≤ 90 then Char.ofNat (c.toNat + 32) else c

/-- Python `str.strip()`: drop leading and trailing whitespace. -/
def pyStrip (l : List Char) : List Char :=
  ((l.dropWhile pyIsSpace).reverse.dropWhile pyIsSpace).reverse

/-- The normalisation `s.lower().strip()` used by `calculate_location_distance`. -/
def pyNormalize (l : List Char) : List Char :=
  pyStrip (l.map pyLower)

/-- Python `s.startswith(t)` on lists (prefix test), used to define `in`. -/
def pyStartsWith : List Char → List Char → Bool
  | [], _ => true
  | _ :: _, [] => false
  | a :: s, b :: t => a == b && pyStartsWith s t

/-- Python substring containment `s in t` (contiguous substring). -/
def pyIn (s : List Char) : List Char → Bool
  | [] => s.isEmpty
  | b :: t => pyStartsWith s (b :: t) || pyIn s t

/-- Embedding of `calculate_location_distance` from `src/app.py` (lines 205-222):
normalise both strings with `.lower().strip()`; `0` on equality, `1` when one
contains the other, `2` otherwise. -/
def calculate_location_distance (loc1 loc2 : List Char) : Nat :=
  let loc1_clean := pyNormalize loc1
  let loc2_clean := pyNormalize loc2
  if loc1_clean = loc2_clean then 0
  else if pyIn loc1_clean loc2_clean || pyIn loc2_clean loc1_clean then 1
  else 2

/-- The three proximity tiers named by the spec. -/
inductive Proximity where
  | SAME
  | NEARBY
  | DISTANT
deriving DecidableEq

/-- The spec's `classify`, read off the numeric result of
`calculate_location_distance` (0 ↦ SAME, 1 ↦ NEARBY, 2 ↦ DISTANT). -/
def classify (a b : List Char) : Proximity :=
  match calculate_location_distance a b with
  | 0 => Proximity.SAME
  | 1 => Proximity.NEARBY
  | _ => Proximity.DISTANT

/-- Modelled from the spec's wording (§4.2), for comparison with the source:
normalise both strings by trimming whitespace and case-folding (spec order:
trim, then fold); SAME if equal after normalisation, NEARBY if one normalised
string is a substring of the other, DISTANT otherwise. -/
def classify_spec (a b : List Char) : Proximity :=
  let na := (pyStrip a).map pyLower
  let nb := (pyStrip b).map pyLower
  if na = nb then Proximity.SAME
  else if pyIn na nb || pyIn nb na then Proximity.NEARBY
  else Proximity.DISTANT

/-- Embedding of `BLOOD_COMPATIBILITY` from `src/app.py` (lines 193-202): for each
requested blood group, the list of donor blood groups that may donate. -/
def BLOOD_COMPATIBILITY : List (String × List String) :=
  [ ("A+", ["A+", "A-", "O+", "O-"]),
    ("A-", ["A-", "O-"]),
    ("B+", ["B+", "B-", "O+", "O-"]),
    ("B-", ["B-", "O-"]),
    ("AB+", ["A+", "A-", "B+", "B-", "AB+", "AB-", "O+", "O-"]),
    ("AB-", ["A-", "B-", "AB-", "O-"]),
    ("O+", ["O+", "O-"]),
    ("O-", ["O-"]) ]

/-- Python `BLOOD_COMPATIBILITY.get(k, [])`: dictionary lookup with default. -/
def BLOOD_COMPATIBILITY_get (k : String) : List String :=
  ((BLOOD_COMPATIBILITY.find? (fun p => p.1 == k)).map Prod.snd).getD []

/-- The 8 defined blood types (the keys of `BLOOD_COMPATIBILITY`). -/
def ALL_BLOOD_TYPES : List String :=
  ["A+", "A-", "B+", "B-", "AB+", "AB-", "O+", "O-"]

/-- A row of the `donors` table, as selected by `find_compatible_donors`
(`SELECT id, name, blood_group, email, phone, location FROM donors`). -/
structure Donor where
  id : Nat
  name : String
  blood_group : String
  email : String
  phone : String
  location : List Char
deriving DecidableEq

/-- The location partition loop of `find_compatible_donors` (lines 270-281):
donors at distance ≤ 1 from the hospital go to `nearby_donors`, the rest to
`far_donors`, both preserving fetch order. -/
def partitionByLocation (hospital_location : List Char) :
    List Donor → List Donor × List Donor
  | [] => ([], [])
  | donor :: rest =>
    let p := partitionByLocation hospital_location rest
    if calculate_location_distance donor.location hospital_location ≤ 1 then
      (donor :: p.1, p.2)
    else
      (p.1, donor :: p.2)

/-- Embedding of `find_compatible_donors` from `src/app.py` (lines 232-291).  The database
is explicit: `none` models `get_db_connection()` failing (the function then
returns `([], [])`), `some donors` models the `donors` table, fetched in
stable order.  The SQL `WHERE blood_group IN (...)` becomes a filter. -/
def find_compatible_donors (db : Option (List Donor))
    (required_blood_group : String) (hospital_location : List Char) :
    List Donor × List Donor :=
  match db with
  | none => ([], [])
  | some donors =>
    let compatible_groups := BLOOD_COMPATIBILITY_get required_blood_group
    if compatible_groups = [] then ([], [])
    else
      let all_donors := donors.filter (fun d => compatible_groups.contains d.blood_group)
      partitionByLocation hospital_location all_donors

/-- Observable actions of the `submit_request` notification phase: one event
per channel attempt and one per `INSERT INTO matches`. -/
inductive Event where
  | emailAttempt (donorId : Nat)
  | whatsappAttempt (donorId : Nat)
  | matchInsert (requestId donorId : Nat)
deriving DecidableEq

/-- The near-tier loop of `submit_request` (lines 705-732): for each nearby
donor, attempt email and WhatsApp; insert a match row and increment
`notified_count` only when the email send reported success.  `emailOk` is
the outcome of `send_email_notification` for each donor id. -/
def notifyNearbyLoop (emailOk : Nat → Bool) (request_id : Nat) :
    List Donor → List Event × Nat
  | [] => ([], 0)
  | donor :: rest =>
    let email_sent := emailOk donor.id
    let r := notifyNearbyLoop emailOk request_id rest
    (Event.emailAttempt donor.id :: Event.whatsappAttempt donor.id ::
      ((if email_sent then [Event.matchInsert request_id donor.id] else []) ++ r.1),
     (if email_sent then 1 else 0) + r.2)

/-- The far-tier loop of `submit_request` (lines 734-756): for each donor of
the (already capped) list, attempt email and WhatsApp, then insert a match
row unconditionally — the email result is discarded and `notified_count` is
not touched. -/
def notifyFarLoop (emailOk : Nat → Bool) (request_id : Nat) :
    List Donor → List Event
  | [] => []
  | donor :: rest =>
    let _email_sent := emailOk donor.id
    Event.emailAttempt donor.id :: Event.whatsappAttempt donor.id ::
      Event.matchInsert request_id donor.id :: notifyFarLoop emailOk request_id rest

/-- The notification phase of `submit_request` (lines 688-766), entered once
the request row is persisted with id `request_id`: find candidates, run the
near loop over all nearby donors, then the far loop over `far_donors[:5]`.
Returns the event trace, `notified_count`, `nearby_count` and `far_count` as
reported in the JSON response. -/
def submit_request_pipeline (emailOk : Nat → Bool) (db : Option (List Donor))
    (request_id : Nat) (required_blood_group : String)
    (hospital_location : List Char) : List Event × Nat × Nat × Nat :=
  let p := find_compatible_donors db required_blood_group hospital_location
  let near := notifyNearbyLoop emailOk request_id p.1
  (near.1 ++ notifyFarLoop emailOk request_id (p.2.take 5),
   near.2, p.1.length, p.2.length)

/-- The donor ids of the email attempts of a trace, in order. -/
def emailAttempts : List Event → List Nat
  | [] => []
  | Event.emailAttempt i :: rest => i :: emailAttempts rest
  | _ :: rest => emailAttempts rest

/-- The donor ids of the WhatsApp attempts of a trace, in order. -/
def whatsappAttempts : List Event → List Nat
  | [] => []
  | Event.whatsappAttempt i :: rest => i :: whatsappAttempts rest
  | _ :: rest => whatsappAttempts rest

/-- Concrete donors for witness instances: two in Mumbai, one in Delhi. -/
def witnessDonors : List Donor :=
  [⟨1, "a", "O-", "e1", "p1", str "Mumbai"⟩,
   ⟨2, "b", "O-", "e2", "p2", str "Mumbai"⟩,
   ⟨3, "c", "O-", "e3", "p3", str "Delhi"⟩]

/-- Concrete donors for witness instances: seven donors, all far from Mumbai. -/
def witnessFarDonors : List Donor :=
  [⟨1, "a", "O-", "e1", "p1", str "Delhi"⟩,
   ⟨2, "b", "O-", "e2", "p2", str "Delhi"⟩,
   ⟨3, "c", "O-", "e3", "p3", str "Delhi"⟩,
   ⟨4, "d", "O-", "e4", "p4", str "Delhi"⟩,
   ⟨5, "e", "O-", "e5", "p5", str "Delhi"⟩,
   ⟨6, "f", "O-", "e6", "p6", str "Delhi"⟩,
   ⟨7, "g", "O-", "e7", "p7", str "Delhi"⟩]

/-! ### Helper lemmas about the location normalisation -/

lemma pyIsSpace_pyLower (c : Char) : pyIsSpace (pyLower c) = pyIsSpace c := by
  unfold pyLower
  split
  · rename_i h
    obtain ⟨h1, h2⟩ := h
    have hc : Char.ofNat c.toNat = c := Char.ofNat_toNat c
    conv_rhs => rw [← hc]
    generalize c.toNat = n at h1 h2 ⊢
    interval_cases n <;> decide
  · rfl

lemma pyStrip_map_pyLower (l : List Char) :
    pyStrip (l.map pyLower) = (pyStrip l).map pyLower := by
  have hfun : (pyIsSpace ∘ pyLower) = pyIsSpace := funext pyIsSpace_pyLower
  unfold pyStrip
  rw [List.dropWhile_map, hfun, ← List.map_reverse, List.dropWhile_map, hfun,
    ← List.map_reverse]

lemma pyNormalize_eq_spec (l : List Char) :
    pyNormalize l = (pyStrip l).map pyLower := by
  unfold pyNormalize
  exact pyStrip_map_pyLower l

lemma pyIn_nil (t : List Char) : pyIn [] t = true := by
  cases t <;> simp [pyIn, pyStartsWith, List.isEmpty]

lemma calculate_location_distance_symm (a b : List Char) :
    calculate_location_distance a b = calculate_location_distance b a := by
  unfold calculate_location_distance
  by_cases h : pyNormalize a = pyNormalize b
  · simp [h]
  · have h' : ¬ pyNormalize b = pyNormalize a := fun e => h e.symm
    simp [h, h', Bool.or_comm]

lemma calculate_location_distance_cases (a b : List Char) :
    calculate_location_distance a b = 0 ∨ calculate_location_distance a b = 1 ∨
      calculate_location_distance a b = 2 := by
  simp only [calculate_location_distance]
  split_ifs <;> simp

lemma calculate_location_distance_le_one_of_empty (a b : List Char)
    (h : pyNormalize a = [] ∨ pyNormalize b = []) :
    calculate_location_distance a b ≤ 1 := by
  unfold calculate_location_distance
  by_cases he : pyNormalize a = pyNormalize b
  · simp [he]
  · rcases h with h | h
    · have he' : ¬ pyNormalize b = [] := fun e => he (h.trans e.symm)
      simp [h, he', pyIn_nil]
    · have he' : ¬ pyNormalize a = [] := fun e => he (e.trans h.symm)
      simp [h, he', pyIn_nil]

lemma mem_partition_near (hosp : List Char) (l : List Donor) (d : Donor)
    (hd : d ∈ l) (hdist : calculate_location_distance d.location hosp ≤ 1) :
    d ∈ (partitionByLocation hosp l).1 := by
  induction l with
  | nil => cases hd
  | cons x rest ih =>
    rcases List.mem_cons.mp hd with rfl | hmem
    · simp only [partitionByLocation, if_pos hdist]
      exact List.mem_cons_self _ _
    · simp only [partitionByLocation]
      split
      · exact List.mem_cons_of_mem _ (ih hmem)
      · exact ih hmem

lemma partition_perm (hosp : List Char) :
    ∀ l : List Donor,
      List.Perm ((partitionByLocation hosp l).1 ++ (partitionByLocation hosp l).2) l
  | [] => by simp [partitionByLocation]
  | d :: rest => by
    have ih := partition_perm hosp rest
    simp only [partitionByLocation]
    split
    · simpa using ih.cons d
    · exact (List.perm_middle).trans (ih.cons d)

/-! ### Helper lemmas about candidate fetching -/

lemma BLOOD_COMPATIBILITY_get_eq_nil (bt : String) (h : bt ∉ ALL_BLOOD_TYPES) :
    BLOOD_COMPATIBILITY_get bt = [] := by
  have hfind : BLOOD_COMPATIBILITY.find? (fun p => p.1 == bt) = none := by
    rw [List.find?_eq_none]
    intro p hp
    fin_cases hp <;>
      · simp only [beq_iff_eq]
        rintro rfl
        exact h (by decide)
  simp [BLOOD_COMPATIBILITY_get, hfind]

lemma tiers_perm_filter (donors : List Donor) (bt : String) (loc : List Char) :
    List.Perm
      ((find_compatible_donors (some donors) bt loc).1 ++
        (find_compatible_donors (some donors) bt loc).2)
      (donors.filter (fun d => (BLOOD_COMPATIBILITY_get bt).contains d.blood_group)) := by
  by_cases hg : BLOOD_COMPATIBILITY_get bt = []
  · have hfil :
        donors.filter (fun d => (BLOOD_COMPATIBILITY_get bt).contains d.blood_group) = [] := by
      simp [hg]
    simp [find_compatible_donors, hg, hfil]
  · simp only [find_compatible_donors, if_neg hg]
    exact partition_perm loc _

lemma nodup_tier_ids (donors : List Donor) (bt : String) (loc : List Char)
    (h : (donors.map Donor.id).Nodup) :
    (((find_compatible_donors (some donors) bt loc).1 ++
      (find_compatible_donors (some donors) bt loc).2).map Donor.id).Nodup := by
  have hperm := (tiers_perm_filter donors bt loc).map Donor.id
  have hsub :
      ((donors.filter
        (fun d => (BLOOD_COMPATIBILITY_get bt).contains d.blood_group)).map Donor.id).Sublist
        (donors.map Donor.id) :=
    (List.filter_sublist donors).map Donor.id
  exact hperm.nodup_iff.mpr (hsub.nodup h)

/-! ### Helper lemmas about the notification loops -/

lemma emailAttempts_append (a b : List Event) :
    emailAttempts (a ++ b) = emailAttempts a ++ emailAttempts b := by
  induction a with
  | nil => rfl
  | cons e rest ih => cases e <;> simp [emailAttempts, ih]

lemma whatsappAttempts_append (a b : List Event) :
    whatsappAttempts (a ++ b) = whatsappAttempts a ++ whatsappAttempts b := by
  induction a with
  | nil => rfl
  | cons e rest ih => cases e <;> simp [whatsappAttempts, ih]

lemma emailAttempts_nearbyLoop (ok : Nat → Bool) (rid : Nat) (l : List Donor) :
    emailAttempts (notifyNearbyLoop ok rid l).1 = l.map Donor.id := by
  induction l with
  | nil => rfl
  | cons d rest ih =>
    by_cases h : ok d.id <;>
      simp [notifyNearbyLoop, emailAttempts, emailAttempts_append, h, ih]

lemma whatsappAttempts_nearbyLoop (ok : Nat → Bool) (rid : Nat) (l : List Donor) :
    whatsappAttempts (notifyNearbyLoop ok rid l).1 = l.map Donor.id := by
  induction l with
  | nil => rfl
  | cons d rest ih =>
    by_cases h : ok d.id <;>
      simp [notifyNearbyLoop, whatsappAttempts, whatsappAttempts_append, h, ih]

lemma emailAttempts_farLoop (ok : Nat → Bool) (rid : Nat) (l : List Donor) :
    emailAttempts (notifyFarLoop ok rid l) = l.map Donor.id := by
  induction l with
  | nil => rfl
  | cons d rest ih => simp [notifyFarLoop, emailAttempts, ih]

lemma whatsappAttempts_farLoop (ok : Nat → Bool) (rid : Nat) (l : List Donor) :
    whatsappAttempts (notifyFarLoop ok rid l) = l.map Donor.id := by
  induction l with
  | nil => rfl
  | cons d rest ih => simp [notifyFarLoop, whatsappAttempts, ih]

lemma matchInsert_mem_nearbyLoop (ok : Nat → Bool) (rid : Nat) (l : List Donor)
    (r i : Nat) :
    Event.matchInsert r i ∈ (notifyNearbyLoop ok rid l).1 ↔
      r = rid ∧ ∃ d ∈ l, d.id = i ∧ ok i = true := by
  induction l with
  | nil => simp [notifyNearbyLoop]
  | cons d rest ih =>
    by_cases h : ok d.id <;>
      · simp only [notifyNearbyLoop, h, List.mem_cons, List.mem_append, ih]
        aesop

lemma matchInsert_mem_farLoop (ok : Nat → Bool) (rid : Nat) (l : List Donor)
    (r i : Nat) :
    Event.matchInsert r i ∈ notifyFarLoop ok rid l ↔
      r = rid ∧ ∃ d ∈ l, d.id = i := by
  induction l with
  | nil => simp [notifyFarLoop]
  | cons d rest ih =>
    simp only [notifyFarLoop, List.mem_cons, ih]
    aesop

lemma notified_count_eq (ok : Nat → Bool) (rid : Nat) (l : List Donor) :
    (notifyNearbyLoop ok rid l).2 = (l.filter (fun d => ok d.id)).length := by
  induction l with
  | nil => rfl
  | cons d rest ih =>
    by_cases h : ok d.id <;> simp [notifyNearbyLoop, List.filter_cons, h, ih]
    omega

/-! ### Claim theorems: compatibility table and proximity classifier -/

/-- C3: for each of the 8 defined blood types the compatible donor set is
non-empty and contains the type itself; the set for O- is exactly {O-} and
the set for AB+ contains exactly all 8 types. -/
theorem compatibility_table_correct :
    (ALL_BLOOD_TYPES.all fun t =>
      !(BLOOD_COMPATIBILITY_get t).isEmpty && (BLOOD_COMPATIBILITY_get t).contains t) = true ∧
    BLOOD_COMPATIBILITY_get "O-" = ["O-"] ∧
    (ALL_BLOOD_TYPES.all fun t => (BLOOD_COMPATIBILITY_get "AB+").contains t) = true ∧
    ((BLOOD_COMPATIBILITY_get "AB+").all fun t => ALL_BLOOD_TYPES.contains t) = true := by
  decide

/-- C5: for all location strings, the classification is SAME exactly when the
two strings agree after trimming whitespace and case-folding, NEARBY when one
normalised string is a substring of the other, DISTANT otherwise (the source
folds before trimming; `classify_spec` trims before folding — they agree),
and the three spec examples hold. -/
theorem classify_follows_spec :
    (∀ a b, classify a b = classify_spec a b) ∧
    classify (str "Mumbai") (str "Mumbai") = Proximity.SAME ∧
    classify (str "Mumbai") (str "Mumbai Central") = Proximity.NEARBY ∧
    classify (str "Mumbai") (str "Delhi") = Proximity.DISTANT := by
  refine ⟨?_, by decide, by decide, by decide⟩
  intro a b
  have hA := pyNormalize_eq_spec a
  have hB := pyNormalize_eq_spec b
  simp only [classify, calculate_location_distance, classify_spec, ← hA, ← hB]
  by_cases h1 : pyNormalize a = pyNormalize b
  · simp [h1]
  · by_cases h2 :
      (pyIn (pyNormalize a) (pyNormalize b) || pyIn (pyNormalize b) (pyNormalize a)) = true
    · simp [h1, h2]
    · simp [h1, h2]

/-- C6: the proximity classification is symmetric in its two arguments, both
as the raw distance score and as the three-valued classification. -/
theorem classify_symmetric :
    (∀ a b, calculate_location_distance a b = calculate_location_distance b a) ∧
    (∀ a b, classify a b = classify b a) := by
  refine ⟨calculate_location_distance_symm, ?_⟩
  intro a b
  simp only [classify, calculate_location_distance_symm a b]

/-- C10: the proximity score is total with value 0, 1 or 2; whenever either
input normalises to the empty string the score is at most 1 (the empty string
is a substring of every string), so a donor whose location normalises to the
empty string is placed in the near tier for every hospital location. -/
theorem blank_location_always_near :
    (∀ a b, calculate_location_distance a b = 0 ∨ calculate_location_distance a b = 1 ∨
      calculate_location_distance a b = 2) ∧
    (∀ a b, pyNormalize a = [] ∨ pyNormalize b = [] →
      calculate_location_distance a b ≤ 1) ∧
    (∀ (hosp : List Char) (donors : List Donor) (d : Donor), d ∈ donors →
      pyNormalize d.location = [] → d ∈ (partitionByLocation hosp donors).1) := by
  refine ⟨calculate_location_distance_cases, calculate_location_distance_le_one_of_empty, ?_⟩
  intro hosp donors d hd hloc
  exact mem_partition_near hosp donors d hd
    (calculate_location_distance_le_one_of_empty _ _ (Or.inl hloc))

/-- Witness for C10 at concrete inputs: a whitespace-only location is at
distance ≤ 1 from "Delhi", and a donor with a blank location is placed in
the near tier. -/
theorem blank_location_always_near_witness :
    calculate_location_distance (str "   ") (str "Delhi") ≤ 1 ∧
    (⟨1, "n", "O-", "e", "p", str " "⟩ : Donor) ∈
      (partitionByLocation (str "Delhi") [⟨1, "n", "O-", "e", "p", str " "⟩]).1 :=
  ⟨blank_location_always_near.2.1 (str "   ") (str "Delhi") (Or.inl (by decide)),
   blank_location_always_near.2.2 (str "Delhi") [⟨1, "n", "O-", "e", "p", str " "⟩]
     ⟨1, "n", "O-", "e", "p", str " "⟩ (by decide) (by decide)⟩

/-! ### Claim theorems: error behaviour of candidate lookup -/

/-- C2 counterexample: for the undefined blood type "XX" the compatibility
lookup does not fail — it returns the default empty list, and
`find_compatible_donors` returns the ordinary value `([], [])`, the very
value also produced for the defined type "A+" with zero donors. -/
theorem unknown_blood_type_no_error_counterexample :
    BLOOD_COMPATIBILITY_get "XX" = [] ∧
    find_compatible_donors (some [⟨1, "n", "O-", "e", "p", str "Delhi"⟩]) "XX"
      (str "Delhi") = ([], []) ∧
    find_compatible_donors (some []) "A+" (str "Delhi") = ([], []) := by
  decide

/-- C2 (amended): for every input string that is not one of the 8 defined
blood types, the compatibility lookup returns the empty list and
`find_compatible_donors` returns `([], [])`; no error is signalled. -/
theorem unknown_blood_type_returns_empty (bt : String) (h : bt ∉ ALL_BLOOD_TYPES) :
    BLOOD_COMPATIBILITY_get bt = [] ∧
    ∀ (db : Option (List Donor)) (loc : List Char),
      find_compatible_donors db bt loc = ([], []) := by
  have hg := BLOOD_COMPATIBILITY_get_eq_nil bt h
  refine ⟨hg, ?_⟩
  intro db loc
  cases db with
  | none => rfl
  | some donors => simp [find_compatible_donors, hg]

/-- Witness for the amended C2 at the concrete unknown type "XX". -/
theorem unknown_blood_type_returns_empty_witness :
    "XX" ∉ ALL_BLOOD_TYPES ∧
    BLOOD_COMPATIBILITY_get "XX" = [] ∧
    find_compatible_donors (some [⟨2, "m", "A+", "e2", "p2", str "Mumbai"⟩]) "XX"
      (str "Mumbai") = ([], []) :=
  ⟨by decide, (unknown_blood_type_returns_empty "XX" (by decide)).1,
   (unknown_blood_type_returns_empty "XX" (by decide)).2
     (some [⟨2, "m", "A+", "e2", "p2", str "Mumbai"⟩]) (str "Mumbai")⟩

/-- C4 counterexample: with the donor store unreachable,
`find_compatible_donors` does not fail with a distinguishable error — it
returns the plain value `([], [])`, identical to the result for a reachable
store with zero eligible donors. -/
theorem store_unavailable_no_error_counterexample :
    find_compatible_donors none "A+" (str "Delhi") = ([], []) ∧
    find_compatible_donors none "A+" (str "Delhi") =
      find_compatible_donors (some []) "A+" (str "Delhi") := by
  decide

/-- C4 (amended): when the donor store is unreachable,
`find_compatible_donors` returns `([], [])` for every input — the same value
as for a reachable store with zero eligible donors, so the caller cannot
distinguish the two outcomes from the return value. -/
theorem store_unavailable_returns_empty :
    ∀ (bt : String) (loc : List Char),
      find_compatible_donors none bt loc = ([], []) ∧
      find_compatible_donors none bt loc = find_compatible_donors (some []) bt loc := by
  intro bt loc
  refine ⟨rfl, ?_⟩
  by_cases hg : BLOOD_COMPATIBILITY_get bt = [] <;>
    simp [find_compatible_donors, hg, partitionByLocation]

/-! ### Helper lemmas about the pipeline -/

lemma pipeline_trace (ok : Nat → Bool) (db : Option (List Donor)) (rid : Nat)
    (bt : String) (loc : List Char) :
    (submit_request_pipeline ok db rid bt loc).1 =
      (notifyNearbyLoop ok rid (find_compatible_donors db bt loc).1).1 ++
        notifyFarLoop ok rid ((find_compatible_donors db bt loc).2.take 5) := rfl

lemma pipeline_notified (ok : Nat → Bool) (db : Option (List Donor)) (rid : Nat)
    (bt : String) (loc : List Char) :
    (submit_request_pipeline ok db rid bt loc).2.1 =
      (notifyNearbyLoop ok rid (find_compatible_donors db bt loc).1).2 := rfl

lemma disjoint_tier_ids (donors : List Donor) (bt : String) (loc : List Char)
    (h : (donors.map Donor.id).Nodup) :
    List.Disjoint ((find_compatible_donors (some donors) bt loc).1.map Donor.id)
      ((find_compatible_donors (some donors) bt loc).2.map Donor.id) := by
  have hnd := nodup_tier_ids donors bt loc h
  rw [List.map_append] at hnd
  exact List.disjoint_of_nodup_append hnd

/-! ### Claim theorems: the notification pipeline -/

/-- C1: once a request is persisted, a near-tier donor has a match row
inserted iff the email channel reported success for that donor; every
attempted far-tier donor (the first 5 in fetch order) gets a match row
regardless of email outcome; and `notified_count` is exactly the number of
email-confirmed near-tier donors, never incremented in the far loop. -/
theorem match_recording_policy (emailOk : Nat → Bool) (donors : List Donor)
    (request_id : Nat) (bt : String) (loc : List Char)
    (h : (donors.map Donor.id).Nodup) :
    (∀ d ∈ (find_compatible_donors (some donors) bt loc).1,
      (Event.matchInsert request_id d.id ∈
          (submit_request_pipeline emailOk (some donors) request_id bt loc).1 ↔
        emailOk d.id = true)) ∧
    (∀ d ∈ (find_compatible_donors (some donors) bt loc).2.take 5,
      Event.matchInsert request_id d.id ∈
        (submit_request_pipeline emailOk (some donors) request_id bt loc).1) ∧
    (submit_request_pipeline emailOk (some donors) request_id bt loc).2.1 =
      ((find_compatible_donors (some donors) bt loc).1.filter
        (fun d => emailOk d.id)).length := by
  have hdisj := disjoint_tier_ids donors bt loc h
  refine ⟨?_, ?_, ?_⟩
  · intro d hd
    constructor
    · intro hmem
      rw [pipeline_trace] at hmem
      rcases List.mem_append.mp hmem with hn | hf
      · obtain ⟨-, d', hd', hid, hok⟩ := (matchInsert_mem_nearbyLoop _ _ _ _ _).mp hn
        exact hok
      · obtain ⟨-, d', hd', hid⟩ := (matchInsert_mem_farLoop _ _ _ _ _).mp hf
        have h1 : d.id ∈ (find_compatible_donors (some donors) bt loc).1.map Donor.id :=
          List.mem_map_of_mem Donor.id hd
        have h2 : d.id ∈ (find_compatible_donors (some donors) bt loc).2.map Donor.id := by
          have := List.mem_map_of_mem Donor.id (List.mem_of_mem_take hd')
          rwa [hid] at this
        exact absurd h2 (hdisj h1)
    · intro hok
      rw [pipeline_trace]
      exact List.mem_append.mpr (Or.inl ((matchInsert_mem_nearbyLoop _ _ _ _ _).mpr
        ⟨rfl, d, hd, rfl, hok⟩))
  · intro d hd
    rw [pipeline_trace]
    exact List.mem_append.mpr (Or.inr ((matchInsert_mem_farLoop _ _ _ _ _).mpr
      ⟨rfl, d, hd, rfl⟩))
  · rw [pipeline_notified, notified_count_eq]

/-- Witness for C1: with donors 1,2 near and 3 far and only donor 1's email
succeeding, donor 1 gets a match row, near donor 2 would not (email failed),
far donor 3 gets one anyway, and `notified_count` is 1. -/
theorem match_recording_policy_witness :
    Event.matchInsert 9 1 ∈
      (submit_request_pipeline (fun i => i == 1) (some witnessDonors) 9 "O-"
        (str "Mumbai")).1 ∧
    ¬ Event.matchInsert 9 2 ∈
      (submit_request_pipeline (fun i => i == 1) (some witnessDonors) 9 "O-"
        (str "Mumbai")).1 ∧
    Event.matchInsert 9 3 ∈
      (submit_request_pipeline (fun i => i == 1) (some witnessDonors) 9 "O-"
        (str "Mumbai")).1 ∧
    (submit_request_pipeline (fun i => i == 1) (some witnessDonors) 9 "O-"
      (str "Mumbai")).2.1 = 1 :=
  ⟨((match_recording_policy (fun i => i == 1) witnessDonors 9 "O-" (str "Mumbai")
      (by decide)).1 ⟨1, "a", "O-", "e1", "p1", str "Mumbai"⟩ (by decide)).mpr (by decide),
   fun hmem =>
     absurd (((match_recording_policy (fun i => i == 1) witnessDonors 9 "O-" (str "Mumbai")
       (by decide)).1 ⟨2, "b", "O-", "e2", "p2", str "Mumbai"⟩ (by decide)).mp hmem)
       (by decide),
   (match_recording_policy (fun i => i == 1) witnessDonors 9 "O-" (str "Mumbai")
     (by decide)).2.1 ⟨3, "c", "O-", "e3", "p3", str "Delhi"⟩ (by decide),
   ((match_recording_policy (fun i => i == 1) witnessDonors 9 "O-" (str "Mumbai")
     (by decide)).2.2).trans (by decide)⟩

/-- C7: in every pipeline run the per-channel attempt lists are exactly the
near-tier donors in fetch order (all of them, unbounded) followed by the
first 5 far-tier donors in fetch order; far-tier donors beyond the first 5
are never attempted on either channel. -/
theorem processing_order_and_far_cap (emailOk : Nat → Bool) (donors : List Donor)
    (request_id : Nat) (bt : String) (loc : List Char)
    (h : (donors.map Donor.id).Nodup) :
    emailAttempts (submit_request_pipeline emailOk (some donors) request_id bt loc).1 =
      (find_compatible_donors (some donors) bt loc).1.map Donor.id ++
        ((find_compatible_donors (some donors) bt loc).2.take 5).map Donor.id ∧
    whatsappAttempts (submit_request_pipeline emailOk (some donors) request_id bt loc).1 =
      (find_compatible_donors (some donors) bt loc).1.map Donor.id ++
        ((find_compatible_donors (some donors) bt loc).2.take 5).map Donor.id ∧
    ∀ d ∈ (find_compatible_donors (some donors) bt loc).2.drop 5,
      d.id ∉ emailAttempts
        (submit_request_pipeline emailOk (some donors) request_id bt loc).1 ∧
      d.id ∉ whatsappAttempts
        (submit_request_pipeline emailOk (some donors) request_id bt loc).1 := by
  have htr : emailAttempts
      (submit_request_pipeline emailOk (some donors) request_id bt loc).1 =
      (find_compatible_donors (some donors) bt loc).1.map Donor.id ++
        ((find_compatible_donors (some donors) bt loc).2.take 5).map Donor.id := by
    rw [pipeline_trace, emailAttempts_append, emailAttempts_nearbyLoop,
      emailAttempts_farLoop]
  have hwa : whatsappAttempts
      (submit_request_pipeline emailOk (some donors) request_id bt loc).1 =
      (find_compatible_donors (some donors) bt loc).1.map Donor.id ++
        ((find_compatible_donors (some donors) bt loc).2.take 5).map Donor.id := by
    rw [pipeline_trace, whatsappAttempts_append, whatsappAttempts_nearbyLoop,
      whatsappAttempts_farLoop]
  refine ⟨htr, hwa, ?_⟩
  intro d hd
  have hdfar : d ∈ (find_compatible_donors (some donors) bt loc).2 :=
    List.mem_of_mem_drop hd
  have hnd := nodup_tier_ids donors bt loc h
  rw [List.map_append] at hnd
  have hdisj := List.disjoint_of_nodup_append hnd
  have hsplit : ((find_compatible_donors (some donors) bt loc).2.take 5).map Donor.id ++
      ((find_compatible_donors (some donors) bt loc).2.drop 5).map Donor.id =
      (find_compatible_donors (some donors) bt loc).2.map Donor.id := by
    rw [← List.map_append, List.take_append_drop]
  have hdisj2 := List.disjoint_of_nodup_append (hsplit ▸ hnd.of_append_right)
  have hnotin : d.id ∉
      (find_compatible_donors (some donors) bt loc).1.map Donor.id ++
        ((find_compatible_donors (some donors) bt loc).2.take 5).map Donor.id := by
    intro hmem
    rcases List.mem_append.mp hmem with hn | hf
    · exact hdisj hn (List.mem_map_of_mem Donor.id hdfar)
    · exact hdisj2 hf (List.mem_map_of_mem Donor.id hd)
  exact ⟨by rw [htr]; exact hnotin, by rw [hwa]; exact hnotin⟩

/-- Witness for C7 with seven far-tier donors: the attempt list on each
channel is exactly the first five far donors, and donor 6 (beyond the cap)
is never attempted. -/
theorem processing_order_and_far_cap_witness :
    emailAttempts (submit_request_pipeline (fun _ => true) (some witnessFarDonors) 9
      "O-" (str "Mumbai")).1 = [1, 2, 3, 4, 5] ∧
    (⟨6, "f", "O-", "e6", "p6", str "Delhi"⟩ : Donor).id ∉
      emailAttempts (submit_request_pipeline (fun _ => true) (some witnessFarDonors) 9
        "O-" (str "Mumbai")).1 :=
  ⟨((processing_order_and_far_cap (fun _ => true) witnessFarDonors 9 "O-"
      (str "Mumbai") (by decide)).1).trans (by decide),
   ((processing_order_and_far_cap (fun _ => true) witnessFarDonors 9 "O-"
      (str "Mumbai") (by decide)).2.2 ⟨6, "f", "O-", "e6", "p6", str "Delhi"⟩
      (by decide)).1⟩

/-- C8: every match row inserted by the pipeline references the persisted
request and a donor drawn from the compatibility-filtered fetch: a donor of
the store whose blood group is in the compatible donor set for the required
blood type.  This holds for the inserts of both the near and the far loop. -/
theorem match_implies_eligible (emailOk : Nat → Bool) (donors : List Donor)
    (request_id : Nat) (bt : String) (loc : List Char) :
    ∀ r i, Event.matchInsert r i ∈
        (submit_request_pipeline emailOk (some donors) request_id bt loc).1 →
      r = request_id ∧ ∃ d ∈ donors, d.id = i ∧
        (BLOOD_COMPATIBILITY_get bt).contains d.blood_group = true := by
  intro r i hmem
  rw [pipeline_trace] at hmem
  have hperm := tiers_perm_filter donors bt loc
  rcases List.mem_append.mp hmem with hn | hf
  · obtain ⟨hr, d, hd, hid, -⟩ := (matchInsert_mem_nearbyLoop _ _ _ _ _).mp hn
    have hdin := hperm.mem_iff.mp (List.mem_append.mpr (Or.inl hd))
    rcases List.mem_filter.mp hdin with ⟨hdd, hbc⟩
    exact ⟨hr, d, hdd, hid, hbc⟩
  · obtain ⟨hr, d, hd, hid⟩ := (matchInsert_mem_farLoop _ _ _ _ _).mp hf
    have hdin := hperm.mem_iff.mp
      (List.mem_append.mpr (Or.inr (List.mem_of_mem_take hd)))
    rcases List.mem_filter.mp hdin with ⟨hdd, hbc⟩
    exact ⟨hr, d, hdd, hid, hbc⟩

/-- Witness for C8: a concrete match insert of the pipeline run over
`witnessDonors` references request 9 and an eligible donor of the store. -/
theorem match_implies_eligible_witness :
    (9 : Nat) = 9 ∧ ∃ d ∈ witnessDonors, d.id = 1 ∧
      (BLOOD_COMPATIBILITY_get "O-").contains d.blood_group = true :=
  match_implies_eligible (fun _ => true) witnessDonors 9 "O-" (str "Mumbai") 9 1
    (by decide)

/-- C9: per request, each donor is attempted at most once per channel: the
near and far tiers partition the compatibility-filtered fetch (no donor in
both tiers), the per-channel attempt lists are duplicate-free, and every
near-tier donor and every attempted far-tier donor appears exactly once in
each channel's attempt list. -/
theorem at_most_one_attempt_per_channel (emailOk : Nat → Bool) (donors : List Donor)
    (request_id : Nat) (bt : String) (loc : List Char)
    (h : (donors.map Donor.id).Nodup) :
    List.Perm
      ((find_compatible_donors (some donors) bt loc).1 ++
        (find_compatible_donors (some donors) bt loc).2)
      (donors.filter (fun d => (BLOOD_COMPATIBILITY_get bt).contains d.blood_group)) ∧
    (∀ d ∈ (find_compatible_donors (some donors) bt loc).1,
      d ∉ (find_compatible_donors (some donors) bt loc).2) ∧
    (emailAttempts
      (submit_request_pipeline emailOk (some donors) request_id bt loc).1).Nodup ∧
    (whatsappAttempts
      (submit_request_pipeline emailOk (some donors) request_id bt loc).1).Nodup ∧
    (∀ d ∈ (find_compatible_donors (some donors) bt loc).1,
      (emailAttempts
        (submit_request_pipeline emailOk (some donors) request_id bt loc).1).count d.id
        = 1 ∧
      (whatsappAttempts
        (submit_request_pipeline emailOk (some donors) request_id bt loc).1).count d.id
        = 1) ∧
    (∀ d ∈ (find_compatible_donors (some donors) bt loc).2.take 5,
      (emailAttempts
        (submit_request_pipeline emailOk (some donors) request_id bt loc).1).count d.id
        = 1 ∧
      (whatsappAttempts
        (submit_request_pipeline emailOk (some donors) request_id bt loc).1).count d.id
        = 1) := by
  have htr : emailAttempts
      (submit_request_pipeline emailOk (some donors) request_id bt loc).1 =
      (find_compatible_donors (some donors) bt loc).1.map Donor.id ++
        ((find_compatible_donors (some donors) bt loc).2.take 5).map Donor.id := by
    rw [pipeline_trace, emailAttempts_append, emailAttempts_nearbyLoop,
      emailAttempts_farLoop]
  have hwa : whatsappAttempts
      (submit_request_pipeline emailOk (some donors) request_id bt loc).1 =
      (find_compatible_donors (some donors) bt loc).1.map Donor.id ++
        ((find_compatible_donors (some donors) bt loc).2.take 5).map Donor.id := by
    rw [pipeline_trace, whatsappAttempts_append, whatsappAttempts_nearbyLoop,
      whatsappAttempts_farLoop]
  have hnd := nodup_tier_ids donors bt loc h
  rw [List.map_append] at hnd
  have hdisj := List.disjoint_of_nodup_append hnd
  have hattnodup :
      ((find_compatible_donors (some donors) bt loc).1.map Donor.id ++
        ((find_compatible_donors (some donors) bt loc).2.take 5).map Donor.id).Nodup :=
    (List.Sublist.append (List.Sublist.refl _)
      ((List.take_sublist 5 _).map Donor.id)).nodup hnd
  refine ⟨tiers_perm_filter donors bt loc, ?_, ?_, ?_, ?_, ?_⟩
  · intro d hd1 hd2
    exact hdisj (List.mem_map_of_mem Donor.id hd1) (List.mem_map_of_mem Donor.id hd2)
  · rw [htr]; exact hattnodup
  · rw [hwa]; exact hattnodup
  · intro d hd
    have hmem : d.id ∈
        (find_compatible_donors (some donors) bt loc).1.map Donor.id ++
          ((find_compatible_donors (some donors) bt loc).2.take 5).map Donor.id :=
      List.mem_append.mpr (Or.inl (List.mem_map_of_mem Donor.id hd))
    exact ⟨by rw [htr]; exact List.count_eq_one_of_mem hattnodup hmem,
      by rw [hwa]; exact List.count_eq_one_of_mem hattnodup hmem⟩
  · intro d hd
    have hmem : d.id ∈
        (find_compatible_donors (some donors) bt loc).1.map Donor.id ++
          ((find_compatible_donors (some donors) bt loc).2.take 5).map Donor.id :=
      List.mem_append.mpr (Or.inr (List.mem_map_of_mem Donor.id hd))
    exact ⟨by rw [htr]; exact List.count_eq_one_of_mem hattnodup hmem,
      by rw [hwa]; exact List.count_eq_one_of_mem hattnodup hmem⟩

/-- Witness for C9: over `witnessDonors`, near donor 1 is not in the far
tier and is attempted exactly once on the email channel. -/
theorem at_most_one_attempt_per_channel_witness :
    (⟨1, "a", "O-", "e1", "p1", str "Mumbai"⟩ : Donor) ∉
      (find_compatible_donors (some witnessDonors) "O-" (str "Mumbai")).2 ∧
    (emailAttempts (submit_request_pipeline (fun _ => true) (some witnessDonors) 9
      "O-" (str "Mumbai")).1).count 1 = 1 :=
  ⟨(at_most_one_attempt_per_channel (fun _ => true) witnessDonors 9 "O-"
      (str "Mumbai") (by decide)).2.1 ⟨1, "a", "O-", "e1", "p1", str "Mumbai"⟩
      (by decide),
   ((at_most_one_attempt_per_channel (fun _ => true) witnessDonors 9 "O-"
      (str "Mumbai") (by decide)).2.2.2.2.1 ⟨1, "a", "O-", "e1", "p1", str "Mumbai"⟩
      (by decide)).1⟩
